import Mathlib

/-!
Shallow embedding of the sawfish-client repository (Rust) in Lean 4.

Byte streams are modelled as `List Nat` (each element a byte value).  The
supported targets of the crate are little-endian, so the native byte order
used by `u64::to_ne_bytes` / `u64::from_ne_bytes` is modelled as
little-endian.  Fallible I/O returns `Except`.
-/

/-- Little-endian encoding of `v` on `n` bytes; models `u64::to_ne_bytes`
(with `n = 8`) on the little-endian targets the crate supports. -/
def natToBytesLE : Nat → Nat → List Nat
  | 0, _ => []
  | n + 1, v => v % 256 :: natToBytesLE n (v / 256)

/-- Little-endian decoding of a byte list; models `u64::from_ne_bytes`. -/
def bytesToNatLE : List Nat → Nat
  | [] => 0
  | b :: bs => b + 256 * bytesToNatLE bs

theorem natToBytesLE_length (n v : Nat) : (natToBytesLE n v).length = n := by
  induction n generalizing v with
  | zero => rfl
  | succ n ih => simp [natToBytesLE, ih]

theorem bytesToNatLE_natToBytesLE (n v : Nat) :
    bytesToNatLE (natToBytesLE n v) = v % 256 ^ n := by
  induction n generalizing v with
  | zero => simp [natToBytesLE, bytesToNatLE, Nat.mod_one]
  | succ n ih =>
    rw [natToBytesLE, bytesToNatLE, ih, Nat.pow_succ', Nat.mod_mul]

/-- `EvalResponse`: result of a form evaluation (`Result<Vec<u8>, Vec<u8>>`
in `src/lib.rs`); `success` is the `Ok` variant, `failure` the `Err` one. -/
inductive EvalResponse
  | success (payload : List Nat)
  | failure (payload : List Nat)
deriving DecidableEq, Repr

/-- `EvalError` from `src/error.rs`.  `ioErr` stands for the `Io` variant
(the payload error value is irrelevant to the claims); `BadResponse`
carries the window, atom, type and format identifiers. -/
inductive EvalError
  | NoResponse
  | ResponseTooLarge (len : Nat)
  | ioErr
  | BadResponse (window atom typ format : Nat)
deriving DecidableEq, Repr

/-- `ConnError` from `src/error.rs`.  `ioErr` models the `Io(path, err)`
variant keeping the path; `x11Err` stands for the `X11` variant. -/
inductive ConnError
  | NoDisplay
  | NoLogname
  | ioErr (path : String)
  | BadScreen (screen : Int)
  | ServerNotFound
  | x11Err
deriving DecidableEq, Repr

/-- Bytes written to the socket by `unix::Client::send_request`
(`src/unix.rs` lines 61-74): a 9-byte header (kind byte `is_async as u8`
followed by the 8-byte native-endian length) then the form itself.  On the
supported targets `usize ≤ u64`, so `u64::try_from(form.len()).unwrap()`
never panics; the encoding is exact for `form.length < 2^64`. -/
def send_request_bytes (form : List Nat) (is_async : Bool) : List Nat :=
  ((if is_async then 1 else 0) :: natToBytesLE 8 form.length) ++ form

/-- `unix::Client::read_response` (`src/unix.rs` lines 77-93) applied to an
input byte stream.  `usize_max` is the platform's `usize::MAX`.  Returns the
decoded response together with the unread remainder of the stream; a stream
too short for a `read_exact` call yields the `Io` error (`UnexpectedEof`). -/
def read_response (usize_max : Nat) (stream : List Nat) :
    Except EvalError (EvalResponse × List Nat) :=
  if stream.length < 8 then Except.error EvalError.ioErr
  else
    let res_len := bytesToNatLE (stream.take 8)
    let rest := stream.drop 8
    if res_len = 0 then Except.error EvalError.NoResponse
    else if usize_max < res_len - 1 then
      Except.error (EvalError.ResponseTooLarge (res_len - 1))
    else
      match rest with
      | [] => Except.error EvalError.ioErr
      | state :: rest =>
        if rest.length < res_len - 1 then Except.error EvalError.ioErr
        else
          Except.ok
            ((if state = 1 then EvalResponse.success (rest.take (res_len - 1))
              else EvalResponse.failure (rest.take (res_len - 1))),
             rest.drop (res_len - 1))

/-- `unix::Client::eval` (`src/unix.rs` lines 47-54): sends the request and,
unless `is_async`, reads the response.  Result: the bytes written to the
socket, and either an error or the response paired with the unread rest of
the input stream. -/
def unix_eval (usize_max : Nat) (form : List Nat) (is_async : Bool)
    (stream : List Nat) :
    List Nat × Except EvalError (EvalResponse × List Nat) :=
  (send_request_bytes form is_async,
   if is_async then Except.ok (EvalResponse.success [], stream)
   else read_response usize_max stream)

/-- Bytes written by `unix::AsyncClient::send_request` (`src/unix.rs` lines
119-132): a single vectored write of the 9-byte header buffer and the form. -/
def async_send_request_bytes (form : List Nat) (is_async : Bool) : List Nat :=
  ((if is_async then 1 else 0) :: natToBytesLE 8 form.length) ++ form

/-- `unix::AsyncClient::read_response` (`src/unix.rs` lines 135-151); same
logic as the blocking variant, with awaited reads. -/
def async_read_response (usize_max : Nat) (stream : List Nat) :
    Except EvalError (EvalResponse × List Nat) :=
  if stream.length < 8 then Except.error EvalError.ioErr
  else
    let res_len := bytesToNatLE (stream.take 8)
    let rest := stream.drop 8
    if res_len = 0 then Except.error EvalError.NoResponse
    else if usize_max < res_len - 1 then
      Except.error (EvalError.ResponseTooLarge (res_len - 1))
    else
      match rest with
      | [] => Except.error EvalError.ioErr
      | state :: rest =>
        if rest.length < res_len - 1 then Except.error EvalError.ioErr
        else
          Except.ok
            ((if state = 1 then EvalResponse.success (rest.take (res_len - 1))
              else EvalResponse.failure (rest.take (res_len - 1))),
             rest.drop (res_len - 1))

/-- `unix::AsyncClient::eval` (`src/unix.rs` lines 105-112). -/
def async_unix_eval (usize_max : Nat) (form : List Nat) (is_async : Bool)
    (stream : List Nat) :
    List Nat × Except EvalError (EvalResponse × List Nat) :=
  (async_send_request_bytes form is_async,
   if is_async then Except.ok (EvalResponse.success [], stream)
   else async_read_response usize_max stream)

/-- Request-frame parsing as performed by the repository's test server
(`src/unix.rs` test module, lines 183-196): the kind is `buf[0]`, the length
is `u64::from_ne_bytes(buf[1..9])`, the form is `buf[9..9+len]`; `none` when
the buffer does not yet hold a full frame. -/
def parse_request (buf : List Nat) : Option (Nat × List Nat) :=
  if buf.length < 9 then none
  else
    let len := bytesToNatLE ((buf.drop 1).take 8)
    if (buf.drop 9).length < len then none
    else some (buf.headI, (buf.drop 9).take len)

/-! ## X11 property-protocol transport (`src/x11.rs`) -/

/-- X11 predefined atom `CARDINAL`. -/
def ATOM_CARDINAL : Nat := 6

/-- X11 predefined atom `STRING`. -/
def ATOM_STRING : Nat := 31

/-- `x::Window::FORMAT`: windows are 32-bit values. -/
def WINDOW_FORMAT : Nat := 32

/-- `PROTOCOL_X11_VERSION` constant from `src/x11.rs`. -/
def PROTOCOL_X11_VERSION : Nat := 1

/-- An `x::GetPropertyReply`: type atom, format, length (in format units)
and the value.  X11 guarantees the value holds `length` items. -/
structure GetPropertyReply where
  typ : Nat
  format : Nat
  length : Nat
  value : List Nat
deriving DecidableEq, Repr

/-- The `x11::Client` state: the server's request window, the private portal
window and the communication property atom (identifiers as numbers). -/
structure X11Client where
  req_win : Nat
  portal : Nat
  property : Nat
deriving DecidableEq, Repr

/-- Environment seen by `x11::Client::open`: the outcomes of the X server
interactions it performs, in order.  `roots` lists root windows of the
screens in setup order; `reqWinAtomExists` is the result of interning
`_SAWFISH_REQUEST_WIN` with `only_if_exists`; `rootReply` is the
`GetProperty` reply for that atom on the root window. -/
structure X11Server where
  connectOk : Bool
  screenNum : Int
  roots : List Nat
  reqWinAtomExists : Bool
  propertyAtom : Nat
  rootReply : GetPropertyReply
  portalId : Nat
deriving DecidableEq, Repr

/-- `usize::try_from(screen: i32)` — succeeds exactly on non-negatives. -/
def usizeOfScreen : Int → Option Nat
  | Int.ofNat n => some n
  | Int.negSucc _ => none

/-- `x11::Client::open` (`src/x11.rs` lines 30-92).  The second component
records whether the `CreateWindow` request for the portal window was issued:
`false` on every failing path before window creation. -/
def x11_open (srv : X11Server) : Except ConnError X11Client × Bool :=
  if !srv.connectOk then (Except.error ConnError.x11Err, false)
  else
    match (usizeOfScreen srv.screenNum).bind (fun idx => srv.roots[idx]?) with
    | none => (Except.error (ConnError.BadScreen srv.screenNum), false)
    | some _root =>
      if !srv.reqWinAtomExists then
        (Except.error ConnError.ServerNotFound, false)
      else if srv.rootReply.typ != ATOM_CARDINAL ||
          srv.rootReply.format != WINDOW_FORMAT ||
          srv.rootReply.length != 1 then
        (Except.error ConnError.ServerNotFound, false)
      else
        (Except.ok { req_win := srv.rootReply.value.headI,
                     portal := srv.portalId,
                     property := srv.propertyAtom }, true)

/-- The response property stored on the portal window by the server: its
type atom, bit format and value bytes. -/
structure StoredProp where
  typ : Nat
  format : Nat
  value : List Nat
deriving DecidableEq, Repr

/-- One `GetProperty(portal, property, STRING, 0, long_length)` round of the
`x11::Client::read_response` loop (`src/x11.rs` lines 151-185): the reply
holds `min (4 * long_length) N` bytes and `bytes_after` is the remainder;
when `bytes_after > 0` the loop retries with `long_length` grown by
`bytes_after / 4 + 1`.  The loop adds at least 1 to `long_length` each
round, so it runs at most `N` more rounds; `fuel` bounds that and is never
exhausted for the fuel chosen in `x11_read_response`. -/
def x11_read_loop (c : X11Client) (prop : StoredProp) :
    Nat → Nat → Except EvalError EvalResponse
  | 0, _ => Except.error EvalError.NoResponse
  | fuel + 1, long_length =>
    if prop.typ != ATOM_STRING || prop.format != 8 then
      Except.error (EvalError.BadResponse c.portal c.property prop.typ
        prop.format)
    else
      let got := min (4 * long_length) prop.value.length
      let bytes_after := prop.value.length - got
      if bytes_after = 0 then
        match prop.value.take got with
        | [] => Except.error EvalError.NoResponse
        | status :: data =>
          Except.ok (if status = 1 then EvalResponse.success data
                     else EvalResponse.failure data)
      else x11_read_loop c prop fuel (long_length + bytes_after / 4 + 1)

/-- `x11::Client::read_response`: the incremental-read loop started at an
initial `long_length` of 16 (32-bit units). -/
def x11_read_response (c : X11Client) (prop : StoredProp) :
    Except EvalError EvalResponse :=
  x11_read_loop c prop (prop.value.length + 1) 16

/-- The `ClientMessage` sent to the server's request window by
`x11::Client::send_request` (`src/x11.rs` lines 130-140): protocol version,
portal window id, property atom id, sync flag, 0. -/
def x11_send_request_msg (c : X11Client) (is_async : Bool) : List Nat :=
  [PROTOCOL_X11_VERSION, c.portal, c.property,
   if is_async then 0 else 1, 0]

/-- `x11::Client::eval` (`src/x11.rs` lines 96-109): writes the form into
the communication property, sends the client message, and — only when not
`is_async` — waits for the server's property notification and reads the
response property `prop`.  Result: the property bytes written and the
client message, paired with the outcome. -/
def x11_eval (c : X11Client) (prop : StoredProp) (form : List Nat)
    (is_async : Bool) :
    (List Nat × List Nat) × Except EvalError EvalResponse :=
  ((form, x11_send_request_msg c is_async),
   if is_async then Except.ok (EvalResponse.success [])
   else x11_read_response c prop)

/-! ## Client façade (`src/lib.rs`, and `client/src/lib.rs` `get_display`) -/

/-- A connected `unix::Client` (the socket path it connected to). -/
structure UnixClientM where
  path : String
deriving DecidableEq, Repr

/-- `Client`'s `Inner` when the `experimental-xcb` feature is off: only the
Unix variant is inhabited. -/
inductive InnerNoXcb
  | unixC (c : UnixClientM)
deriving DecidableEq, Repr

/-- `Client`'s `Inner` with the `experimental-xcb` feature on. -/
inductive InnerXcb
  | unixC (c : UnixClientM)
  | x11C (c : X11Client)
deriving DecidableEq, Repr

/-- `get_display` (`client/src/lib.rs` lines 300-308, inlined in
`src/lib.rs` lines 53-57): the explicit argument, else the `DISPLAY`
environment variable (`envDisplay`), filtered to be non-empty. -/
def get_display (display envDisplay : Option String) :
    Except ConnError String :=
  match Option.filter (fun d => !d.isEmpty)
      (display.orElse (fun _ => envDisplay)) with
  | some d => Except.ok d
  | none => Except.error ConnError.NoDisplay

/-- The `x11::Client::fallback` stub compiled when `experimental-xcb` is off
(`src/lib.rs` lines 135-140): returns the passed-in error; the client type
is uninhabited. -/
def x11_fallback_stub (_display : String) (err : ConnError) :
    Except ConnError Empty :=
  Except.error err

/-- `Client::open` without the `experimental-xcb` feature (`src/lib.rs`
lines 52-63 with the stub `x11` module).  `unixOpen` is the outcome of
`unix::Client::open` per display string. -/
def client_open_noXcb (display envDisplay : Option String)
    (unixOpen : String → Except ConnError UnixClientM) :
    Except ConnError InnerNoXcb :=
  match get_display display envDisplay with
  | Except.error e => Except.error e
  | Except.ok d =>
    match unixOpen d with
    | Except.ok c => Except.ok (InnerNoXcb.unixC c)
    | Except.error err => (x11_fallback_stub d err).map (fun c => c.elim)

/-- `x11::Client::fallback` with the feature on (`src/x11.rs` lines 25-27):
ignores the passed-in error and opens via the property protocol. -/
def x11_fallback (srv : X11Server) (_display : String) (_err : ConnError) :
    Except ConnError X11Client × Bool :=
  x11_open srv

/-- `Client::open` with the `experimental-xcb` feature (`src/lib.rs` lines
52-63).  `srv` is the environment of the X11 open attempt for the display. -/
def client_open_xcb (display envDisplay : Option String)
    (unixOpen : String → Except ConnError UnixClientM)
    (srv : X11Server) : Except ConnError InnerXcb :=
  match get_display display envDisplay with
  | Except.error e => Except.error e
  | Except.ok d =>
    match unixOpen d with
    | Except.ok c => Except.ok (InnerXcb.unixC c)
    | Except.error err => ((x11_fallback srv d err).1).map InnerXcb.x11C

/-! ## Helper lemmas -/

theorem take8_append (v : Nat) (l : List Nat) :
    (natToBytesLE 8 v ++ l).take 8 = natToBytesLE 8 v := by
  have h := natToBytesLE_length 8 v
  calc (natToBytesLE 8 v ++ l).take 8
      = (natToBytesLE 8 v ++ l).take (natToBytesLE 8 v).length := by rw [h]
    _ = natToBytesLE 8 v := List.take_left _ _

theorem drop8_append (v : Nat) (l : List Nat) :
    (natToBytesLE 8 v ++ l).drop 8 = l := by
  have h := natToBytesLE_length 8 v
  calc (natToBytesLE 8 v ++ l).drop 8
      = (natToBytesLE 8 v ++ l).drop (natToBytesLE 8 v).length := by rw [h]
    _ = l := List.drop_left _ _

theorem pow256_eight : (256 : Nat) ^ 8 = 2 ^ 64 := by norm_num

theorem bytesToNatLE_u64 (v : Nat) (hv : v < 2 ^ 64) :
    bytesToNatLE (natToBytesLE 8 v) = v := by
  rw [bytesToNatLE_natToBytesLE, pow256_eight, Nat.mod_eq_of_lt hv]

theorem take_length_append (l1 l2 : List Nat) :
    (l1 ++ l2).take l1.length = l1 := List.take_left _ _

theorem drop_length_append (l1 l2 : List Nat) :
    (l1 ++ l2).drop l1.length = l2 := List.drop_left _ _

/-! ## Claim theorems -/

/-- C1: decoding a stream that begins with a well-formed response frame
(8-byte native-endian length `v`, a status byte, and `v - 1` payload bytes)
fails with `NoResponse` when `v = 0`, fails with `ResponseTooLarge` when
`v - 1` exceeds `usize::MAX`, and otherwise returns `success payload`
exactly when the status byte is 1 and `failure payload` for any other
status byte, preserving the payload byte-for-byte and leaving the trailing
stream unread. -/
theorem read_response_spec (usize_max v status : Nat)
    (payload rest : List Nat) (hv : v < 2 ^ 64)
    (hlen : payload.length = v - 1) :
    read_response usize_max (natToBytesLE 8 v ++ status :: (payload ++ rest)) =
      (if v = 0 then Except.error EvalError.NoResponse
       else if usize_max < v - 1 then
         Except.error (EvalError.ResponseTooLarge (v - 1))
       else Except.ok
         ((if status = 1 then EvalResponse.success payload
           else EvalResponse.failure payload), rest)) := by
  have hnot : ¬ (natToBytesLE 8 v ++ status :: (payload ++ rest)).length < 8 := by
    simp [natToBytesLE_length]
  unfold read_response
  rw [if_neg hnot]
  simp only [take8_append, drop8_append, bytesToNatLE_u64 v hv]
  by_cases h0 : v = 0
  · simp [h0]
  · rw [if_neg h0, if_neg h0]
    by_cases hbig : usize_max < v - 1
    · rw [if_pos hbig, if_pos hbig]
    · rw [if_neg hbig, if_neg hbig]
      have hge : ¬ (payload ++ rest).length < v - 1 := by
        simp [List.length_append, hlen]
      rw [if_neg hge]
      have htake : (payload ++ rest).take (v - 1) = payload := by
        rw [← hlen]; exact take_length_append _ _
      have hdrop : (payload ++ rest).drop (v - 1) = rest := by
        rw [← hlen]; exact drop_length_append _ _
      rw [htake, hdrop]

/-- C1 witness: a concrete well-formed frame with status 1 decodes to a
success with the payload preserved. -/
theorem read_response_spec_witness :
    (3 : Nat) < 2 ^ 64 ∧ ([111, 107] : List Nat).length = 3 - 1 ∧
    read_response 1000 (natToBytesLE 8 3 ++ 1 :: ([111, 107] ++ [5])) =
      Except.ok (EvalResponse.success [111, 107], [5]) :=
  ⟨by norm_num, rfl,
   (by simpa using read_response_spec 1000 3 1 [111, 107] [5] (by norm_num) rfl)⟩

/-- C2: the encoded request is exactly a 9-byte header — a kind byte (0 for
sync, 1 for fire-and-forget) followed by the 8-byte native-endian encoding
of the form's length — followed by the form bytes, and the encoded length
field decodes to the payload length. -/
theorem send_request_frame_spec (form : List Nat) (is_async : Bool)
    (h : form.length < 2 ^ 64) :
    send_request_bytes form is_async =
      ((if is_async then 1 else 0) :: natToBytesLE 8 form.length) ++ form ∧
    (send_request_bytes form is_async).length = 9 + form.length ∧
    (send_request_bytes form is_async).headI =
      (if is_async then 1 else 0) ∧
    bytesToNatLE (((send_request_bytes form is_async).drop 1).take 8) =
      form.length ∧
    (send_request_bytes form is_async).drop 9 = form := by
  have hdrop1 : (send_request_bytes form is_async).drop 1 =
      natToBytesLE 8 form.length ++ form := by
    simp [send_request_bytes]
  refine ⟨rfl, ?_, ?_, ?_, ?_⟩
  · simp [send_request_bytes, natToBytesLE_length]; omega
  · cases is_async <;> rfl
  · rw [hdrop1, take8_append, bytesToNatLE_u64 _ h]
  · have : (send_request_bytes form is_async).drop 9 =
        ((send_request_bytes form is_async).drop 1).drop 8 := by
      rw [List.drop_drop]
    rw [this, hdrop1, drop8_append]

/-- C2 witness: the two-byte form `"ok"` with the fire-and-forget flag. -/
theorem send_request_frame_spec_witness :
    ([111, 107] : List Nat).length < 2 ^ 64 ∧
    send_request_bytes [111, 107] true =
      ((if true then 1 else 0) :: natToBytesLE 8 2) ++ [111, 107] ∧
    bytesToNatLE (((send_request_bytes [111, 107] true).drop 1).take 8) = 2 :=
  ⟨by norm_num,
   (send_request_frame_spec [111, 107] true (by norm_num)).1,
   (send_request_frame_spec [111, 107] true (by norm_num)).2.2.2.1⟩

/-- C3 counterexample: feeding the encoded request for the sync form `"ok"`
into the response decoder does not round-trip anything — the decoder
misreads the length field (kind byte plus the low length bytes) as 512 and
fails with an I/O error after exhausting the stream. -/
theorem roundtrip_counterexample :
    read_response (2 ^ 64 - 1) (send_request_bytes [111, 107] false) =
      Except.error EvalError.ioErr := by rfl

/-- C3 amended: feeding the bytes produced by the request encoder into the
request-frame parser (the frame layout the repository's test server reads)
round-trips the kind byte and the payload exactly. -/
theorem request_roundtrip_amended (form : List Nat) (a : Bool)
    (h : form.length < 2 ^ 64) :
    parse_request (send_request_bytes form a) =
      some (if a then 1 else 0, form) := by
  have hdrop1 : (send_request_bytes form a).drop 1 =
      natToBytesLE 8 form.length ++ form := by
    simp [send_request_bytes]
  have hdrop9 : (send_request_bytes form a).drop 9 = form := by
    have : (send_request_bytes form a).drop 9 =
        ((send_request_bytes form a).drop 1).drop 8 := by
      rw [List.drop_drop]
    rw [this, hdrop1, drop8_append]
  have hlen9 : ¬ (send_request_bytes form a).length < 9 := by
    simp [send_request_bytes, natToBytesLE_length]
  unfold parse_request
  rw [if_neg hlen9, hdrop1, take8_append, bytesToNatLE_u64 _ h, hdrop9]
  rw [if_neg (lt_irrefl _), List.take_length]
  cases a <;> rfl

/-- C3 amended witness: round-trip of a concrete fire-and-forget request. -/
theorem request_roundtrip_amended_witness :
    ([1, 2, 3] : List Nat).length < 2 ^ 64 ∧
    parse_request (send_request_bytes [1, 2, 3] true) =
      some (if true then 1 else 0, [1, 2, 3]) :=
  ⟨by norm_num, request_roundtrip_amended [1, 2, 3] true (by norm_num)⟩

/-- C4: the blocking socket client and the suspension-based socket client
are observationally equivalent — for every form, flag and input stream they
write the same request bytes and return the same result. -/
theorem async_eval_eq_sync (usize_max : Nat) (form : List Nat)
    (is_async : Bool) (stream : List Nat) :
    async_unix_eval usize_max form is_async stream =
      unix_eval usize_max form is_async stream := rfl

/-- C5: a fire-and-forget eval returns `success []` as soon as the write
completes: on the socket transport the input stream is returned unread (no
bytes consumed), and on the X11 transport the result is `success []`
independent of any response property. -/
theorem fire_and_forget_spec (usize_max : Nat) (form stream : List Nat)
    (c : X11Client) (prop : StoredProp) :
    unix_eval usize_max form true stream =
      (send_request_bytes form true,
       Except.ok (EvalResponse.success [], stream)) ∧
    (x11_eval c prop form true).2 = Except.ok (EvalResponse.success []) :=
  ⟨rfl, rfl⟩

/-- C6: the façade tries the socket transport first — if it succeeds the
X11 environment is never consulted — and when the `experimental-xcb`
fallback is compiled out, a socket failure is returned to the caller as the
original connection error, unchanged. -/
theorem open_fallback_order_spec (display envDisplay : Option String)
    (d : String) (unixOpen : String → Except ConnError UnixClientM)
    (hd : get_display display envDisplay = Except.ok d) :
    (∀ c, unixOpen d = Except.ok c →
       client_open_noXcb display envDisplay unixOpen =
         Except.ok (InnerNoXcb.unixC c) ∧
       ∀ srv, client_open_xcb display envDisplay unixOpen srv =
         Except.ok (InnerXcb.unixC c)) ∧
    (∀ err, unixOpen d = Except.error err →
       client_open_noXcb display envDisplay unixOpen = Except.error err) := by
  constructor
  · intro c hc
    constructor
    · simp [client_open_noXcb, hd, hc]
    · intro srv
      simp [client_open_xcb, hd, hc]
  · intro err he
    simp [client_open_noXcb, hd, he, x11_fallback_stub, Except.map]

/-- C6 witness: with the fallback compiled out, a concrete socket failure
is passed through unchanged. -/
theorem open_fallback_order_spec_witness :
    get_display (some ":0") none = Except.ok ":0" ∧
    client_open_noXcb (some ":0") none
        (fun _ => Except.error (ConnError.ioErr "sock")) =
      Except.error (ConnError.ioErr "sock") :=
  ⟨rfl,
   (open_fallback_order_spec (some ":0") none ":0"
       (fun _ => Except.error (ConnError.ioErr "sock")) rfl).2
     (ConnError.ioErr "sock") rfl⟩

/-- C7: if the X11 connection and screen resolution succeed but the
well-known request-window atom does not exist, or the root-window property
is malformed (wrong type, format or length), `x11::Client::open` fails with
`ServerNotFound` and the portal `CreateWindow` request is never issued. -/
theorem x11_discovery_failure_spec (srv : X11Server) (root : Nat)
    (hconn : srv.connectOk = true)
    (hscreen : (usizeOfScreen srv.screenNum).bind
        (fun idx => srv.roots[idx]?) = some root)
    (h : srv.reqWinAtomExists = false ∨
         ¬(srv.rootReply.typ = ATOM_CARDINAL ∧
           srv.rootReply.format = WINDOW_FORMAT ∧
           srv.rootReply.length = 1)) :
    x11_open srv = (Except.error ConnError.ServerNotFound, false) := by
  unfold x11_open
  rw [hconn, hscreen]
  rcases h with h | h
  · simp [h]
  · by_cases ha : srv.reqWinAtomExists = false
    · simp [ha]
    · have ha' : srv.reqWinAtomExists = true := by
        cases hb : srv.reqWinAtomExists
        · exact absurd hb ha
        · rfl
      have hcond : (srv.rootReply.typ != ATOM_CARDINAL ||
          srv.rootReply.format != WINDOW_FORMAT ||
          srv.rootReply.length != 1) = true := by
        rcases Decidable.not_and_iff_or_not.mp h with h1 | h2
        · simp [bne_iff_ne, h1]
        · rcases Decidable.not_and_iff_or_not.mp h2 with h3 | h4
          · simp [bne_iff_ne, h3]
          · simp [bne_iff_ne, h4]
      simp [ha', hcond]

/-- C7 witness: a server where the request-window atom does not exist. -/
theorem x11_discovery_failure_spec_witness :
    x11_open ⟨true, 0, [42], false, 7, ⟨6, 32, 1, [10]⟩, 8⟩ =
      (Except.error ConnError.ServerNotFound, false) :=
  x11_discovery_failure_spec ⟨true, 0, [42], false, 7, ⟨6, 32, 1, [10]⟩, 8⟩
    42 rfl rfl (Or.inl rfl)

/-- The `read_response` property loop returns the whole stored value split
into status byte and payload, for any starting `long_length` and any fuel
exceeding the remaining iteration count (the loop grows `long_length` by at
least one per round, so `k` bounds the remaining rounds). -/
theorem x11_read_loop_complete (c : X11Client) (v : List Nat) (k : Nat) :
    ∀ fuel L, v.length - 4 * L ≤ k → k < fuel →
    x11_read_loop c ⟨ATOM_STRING, 8, v⟩ fuel L =
      (match v with
       | [] => Except.error EvalError.NoResponse
       | status :: data =>
         Except.ok (if status = 1 then EvalResponse.success data
                    else EvalResponse.failure data)) := by
  induction k with
  | zero =>
    intro fuel L hk hf
    match fuel, hf with
    | fuel + 1, _ =>
      have hge : v.length ≤ 4 * L := by omega
      simp [x11_read_loop, Nat.min_eq_right hge, Nat.sub_self,
        List.take_length]
  | succ k ih =>
    intro fuel L hk hf
    match fuel, hf with
    | fuel + 1, hf =>
      by_cases hge : v.length ≤ 4 * L
      · simp [x11_read_loop, Nat.min_eq_right hge, Nat.sub_self,
          List.take_length]
      · have hlt : 4 * L < v.length := by omega
        have hmin : min (4 * L) v.length = 4 * L :=
          Nat.min_eq_left (Nat.le_of_lt hlt)
        have hba : v.length - min (4 * L) v.length ≠ 0 := by omega
        rw [x11_read_loop]
        simp only [bne_self_eq_false, Bool.or_self, Bool.false_eq_true,
          if_false]
        rw [if_neg hba]
        exact ih fuel (L + (v.length - min (4 * L) v.length) / 4 + 1)
          (by omega) (by omega)

/-- C8: for a response property of type STRING and format 8 holding a
status byte followed by a payload larger than the initial 16-unit read
window, the incremental read loop returns the complete value — first byte
as status, the remaining bytes as the payload, with no truncation and no
duplication. -/
theorem x11_incremental_read_spec (c : X11Client) (status : Nat)
    (payload : List Nat) (h : 64 < payload.length + 1) :
    x11_read_response c ⟨ATOM_STRING, 8, status :: payload⟩ =
      Except.ok (if status = 1 then EvalResponse.success payload
                 else EvalResponse.failure payload) := by
  have := x11_read_loop_complete c (status :: payload)
    (status :: payload).length ((status :: payload).length + 1) 16
    (by omega) (by omega)
  simpa [x11_read_response] using this

/-- C8 witness: a 71-byte property (status 1 plus 70 payload bytes) is read
back completely. -/
theorem x11_incremental_read_spec_witness :
    64 < (List.replicate 70 9 : List Nat).length + 1 ∧
    x11_read_response ⟨1, 2, 3⟩ ⟨ATOM_STRING, 8, 1 :: List.replicate 70 9⟩ =
      Except.ok (if (1 : Nat) = 1 then
          EvalResponse.success (List.replicate 70 9)
        else EvalResponse.failure (List.replicate 70 9)) :=
  ⟨by simp, x11_incremental_read_spec ⟨1, 2, 3⟩ 1 (List.replicate 70 9)
    (by simp)⟩

/-- C9: with the `experimental-xcb` fallback compiled in, when the socket
open fails and the X11 property-protocol open also fails, `Client::open`
returns the X11 attempt's error; the original socket error is discarded. -/
theorem x11_error_replaces_socket_error (display envDisplay : Option String)
    (d : String) (unixOpen : String → Except ConnError UnixClientM)
    (srv : X11Server) (err e2 : ConnError)
    (hd : get_display display envDisplay = Except.ok d)
    (hu : unixOpen d = Except.error err)
    (hx : (x11_open srv).1 = Except.error e2) :
    client_open_xcb display envDisplay unixOpen srv = Except.error e2 := by
  simp [client_open_xcb, hd, hu, x11_fallback, hx, Except.map]

/-- C9 witness: the socket fails with an I/O error, the X11 attempt fails
with `ServerNotFound`, and `open` reports `ServerNotFound`, not the I/O
error. -/
theorem x11_error_replaces_socket_error_witness :
    client_open_xcb (some ":9") none
        (fun _ => Except.error (ConnError.ioErr "s2"))
        ⟨true, 0, [41], false, 7, ⟨0, 0, 0, []⟩, 9⟩ =
      Except.error ConnError.ServerNotFound :=
  x11_error_replaces_socket_error (some ":9") none ":9"
    (fun _ => Except.error (ConnError.ioErr "s2"))
    ⟨true, 0, [41], false, 7, ⟨0, 0, 0, []⟩, 9⟩
    (ConnError.ioErr "s2") ConnError.ServerNotFound rfl rfl rfl

/-- C10: an empty display string is treated like a missing one — `open`
with an explicit empty display (regardless of the `DISPLAY` environment
variable, which is not consulted), and `open` with no display while
`DISPLAY` is unset or empty, all fail with `NoDisplay` for every possible
socket and X11 environment, i.e. before any connection attempt. -/
theorem empty_display_spec (env envA : Option String)
    (unixOpen : String → Except ConnError UnixClientM) (srv : X11Server)
    (henv : env = none ∨ env = some "") :
    client_open_noXcb (some "") envA unixOpen =
      Except.error ConnError.NoDisplay ∧
    client_open_xcb (some "") envA unixOpen srv =
      Except.error ConnError.NoDisplay ∧
    client_open_noXcb none env unixOpen =
      Except.error ConnError.NoDisplay ∧
    client_open_xcb none env unixOpen srv =
      Except.error ConnError.NoDisplay := by
  have h1 : get_display (some "") envA =
      Except.error ConnError.NoDisplay := rfl
  have h2 : get_display none env = Except.error ConnError.NoDisplay := by
    rcases henv with h | h <;> subst h <;> rfl
  refine ⟨?_, ?_, ?_, ?_⟩ <;>
    simp [client_open_noXcb, client_open_xcb, h1, h2]

/-- C10 witness: `open(Some "")` fails with `NoDisplay` even though
`DISPLAY` is set, and `open(None)` with `DISPLAY` unset fails with
`NoDisplay`, both under an environment where every connection attempt
would succeed. -/
theorem empty_display_spec_witness :
    client_open_noXcb (some "") (some ":7") (fun p => Except.ok ⟨p⟩) =
      Except.error ConnError.NoDisplay ∧
    client_open_xcb none none (fun p => Except.ok ⟨p⟩)
        ⟨true, 0, [40], true, 7, ⟨6, 32, 1, [11]⟩, 12⟩ =
      Except.error ConnError.NoDisplay :=
  ⟨(empty_display_spec none (some ":7") (fun p => Except.ok ⟨p⟩)
      ⟨true, 0, [40], true, 7, ⟨6, 32, 1, [11]⟩, 12⟩ (Or.inl rfl)).1,
   (empty_display_spec none none (fun p => Except.ok ⟨p⟩)
      ⟨true, 0, [40], true, 7, ⟨6, 32, 1, [11]⟩, 12⟩ (Or.inl rfl)).2.2.2⟩
